import Mathlib

/-!
Verification development for the PAYLOAD_24-25 flight-computer repository.

The definitions below are a shallow embedding of the Python sources:
  * `payload/utils.py`            — `deadband`, `convert_to_seconds`
  * `payload/data_handling/imu_data_packet.py` — `IMUDataPacket`
  * `payload/data_handling/data_processor.py`  — `IMUDataProcessor`
  * `main.py`                     — `SubscaleSystem.calculate_altitude`,
                                    `LaunchState` and the flight thresholds
Python floats are modelled as real numbers; scipy `Rotation` objects are
modelled as quaternions over the reals with the exact mathematical
counterparts of `from_quat`, `from_rotvec`, composition (`*`) and `apply`.
Python exceptions raised by the modelled code paths are made explicit with
`Except PyError`.
-/

/-- Python exception kinds that the modelled code paths can raise. -/
inductive PyError : Type
  | typeError
  | attributeError
  | valueError
  | indexError
  deriving DecidableEq

/-- A 3-vector of reals (a numpy array of three floats). -/
structure Vec3 : Type where
  x : ℝ
  y : ℝ
  z : ℝ


/-- A quaternion (w, x, y, z), scalar first — the internal state of a scipy
`Rotation` object. -/
structure Quat : Type where
  w : ℝ
  x : ℝ
  y : ℝ
  z : ℝ


/-- The identity quaternion (no rotation). -/
def idQ : Quat := ⟨1, 0, 0, 0⟩

/-- Euclidean norm of a quaternion. -/
noncomputable def qnorm (q : Quat) : ℝ :=
  Real.sqrt (q.w ^ 2 + q.x ^ 2 + q.y ^ 2 + q.z ^ 2)

/-- Hamilton product of two quaternions; this is how scipy composes two
`Rotation`s with `*` (in exact arithmetic). -/
def qmul (p q : Quat) : Quat :=
  ⟨p.w * q.w - p.x * q.x - p.y * q.y - p.z * q.z,
   p.w * q.x + p.x * q.w + p.y * q.z - p.z * q.y,
   p.w * q.y - p.x * q.z + p.y * q.w + p.z * q.x,
   p.w * q.z + p.x * q.y - p.y * q.x + p.z * q.w⟩

/-- Quaternion conjugate. -/
def qconj (q : Quat) : Quat := ⟨q.w, -q.x, -q.y, -q.z⟩

/-- Rotation of a vector by a (unit) quaternion: the vector part of
`q * (0, v) * conj q` — scipy's `Rotation.apply` in exact arithmetic. -/
def qapply (q : Quat) (v : Vec3) : Vec3 :=
  let p := qmul (qmul q ⟨0, v.x, v.y, v.z⟩) (qconj q)
  ⟨p.x, p.y, p.z⟩

/-- Mathematical content of scipy `Rotation.from_rotvec([a, b, c])`: the
rotation by angle `θ = |(a, b, c)|` about that axis, as the quaternion
`(cos (θ/2), sin (θ/2) / θ * (a, b, c))`, with the limit value `1/2` of the
scale factor at `θ = 0` (scipy evaluates it by a Taylor series there). -/
noncomputable def from_rotvec (a b c : ℝ) : Quat :=
  let θ := Real.sqrt (a ^ 2 + b ^ 2 + c ^ 2)
  let sc := if θ = 0 then (1 : ℝ) / 2 else Real.sin (θ / 2) / θ
  ⟨Real.cos (θ / 2), sc * a, sc * b, sc * c⟩

/-- Mathematical content of scipy `Rotation.from_quat([w, x, y, z],
scalar_first=True)` on optional components, as used by
`IMUDataProcessor._first_update`: a missing component makes the conversion
raise (`np.array` of `None`s cannot be cast to float), a zero-norm
quaternion raises `ValueError`, and otherwise the quaternion is normalized. -/
noncomputable def from_quat_opt (w x y z : Option ℝ) : Except PyError Quat :=
  match w, x, y, z with
  | some w, some x, some y, some z =>
      let n := qnorm ⟨w, x, y, z⟩
      if n = 0 then .error .valueError
      else .ok ⟨w / n, x / n, y / n, z / n⟩
  | _, _, _, _ => .error .typeError

/-- Source `payload/utils.py`, `deadband`: returns `0` if the input is
within the deadband threshold, otherwise returns the input unchanged. -/
noncomputable def deadband (input_value threshold : ℝ) : ℝ :=
  if |input_value| < threshold then 0.0 else input_value

/-- Source `payload/utils.py`, `convert_to_seconds`: converts milliseconds
to seconds. -/
noncomputable def convert_to_seconds (timestamp : ℝ) : ℝ :=
  timestamp / 1e3

/-- Modelled from the spec: `payload/constants.py` is not part of the
sources provided, so the standard-gravity constant it exports is taken from
spec §4.3 step 5 ("subtract standard gravity (9.80665 m/s²)"). -/
noncomputable def GRAVITY_METERS_PER_SECOND_SQUARED : ℝ := 9.80665

/-- Modelled from the spec: `payload/constants.py` is not part of the
sources provided, so the fixed deadband threshold it exports is taken from
the spec's testable property §8 ("threshold 0.1 m/s²"). -/
noncomputable def ACCEL_DEADBAND_METERS_PER_SECOND_SQUARED : ℝ := 0.1

/-- Source `payload/data_handling/imu_data_packet.py`, `IMUDataPacket`,
restricted to the fields `IMUDataProcessor` reads. `timestamp` is an `int`.
In the source every sensor field is `float | None`; the embedding keeps the
orientation-quaternion components optional (their absence is an observable
code path in `_first_update`) and models the acceleration, angular-rate and
pressure-altitude fields as reals, i.e. packets in which the channels the
processor's arithmetic consumes are present. The processor reads the
pressure altitude under the name `estPressureAlt`. -/
structure IMUDataPacket : Type where
  timestamp : ℤ
  estPressureAlt : ℝ
  estCompensatedAccelX : ℝ
  estCompensatedAccelY : ℝ
  estCompensatedAccelZ : ℝ
  estAngularRateX : ℝ
  estAngularRateY : ℝ
  estAngularRateZ : ℝ
  estOrientQuaternionW : Option ℝ := none
  estOrientQuaternionX : Option ℝ := none
  estOrientQuaternionY : Option ℝ := none
  estOrientQuaternionZ : Option ℝ := none

/-- Mean of a list of reals (`np.mean`). -/
noncomputable def listMean (l : List ℝ) : ℝ := l.sum / l.length

/-- Maximum of a non-empty list of reals (`np.ndarray.max`); the `[]` case
is unreachable at every call site. -/
def listMax : List ℝ → ℝ
  | [] => 0
  | h :: t => t.foldl max h

/-- Successive differences of a list (`np.diff`). -/
def npDiff : List ℝ → List ℝ
  | [] => []
  | [_] => []
  | a :: b :: t => (b - a) :: npDiff (b :: t)

/-- Helper for `cumsum`, carrying the running sum. -/
def cumsumFrom (acc : ℝ) : List ℝ → List ℝ
  | [] => []
  | h :: t => (acc + h) :: cumsumFrom (acc + h) t

/-- Cumulative sums of a list (`np.cumsum`). -/
def cumsum (l : List ℝ) : List ℝ := cumsumFrom 0 l

/-- Source `payload/data_handling/data_processor.py`, class
`IMUDataProcessor`: the mutable attribute state of one processor object
(the `__slots__`). -/
structure IMUDataProcessor : Type where
  _max_altitude : ℝ
  _vertical_velocities : List ℝ
  _max_vertical_velocity : ℝ
  _previous_vertical_velocity : ℝ
  _initial_altitude : Option ℝ
  _current_altitudes : List ℝ
  _last_data_packet : Option IMUDataPacket
  _current_orientation_quaternions : Option Quat
  _rotated_accelerations : List ℝ
  _data_packets : List IMUDataPacket
  _time_differences : List ℝ

namespace IMUDataProcessor

/-- Source `IMUDataProcessor.__init__`: the freshly constructed state. -/
def init : IMUDataProcessor where
  _max_altitude := 0.0
  _vertical_velocities := [0.0]
  _max_vertical_velocity := 0.0
  _previous_vertical_velocity := 0.0
  _initial_altitude := none
  _current_altitudes := [0.0]
  _last_data_packet := none
  _current_orientation_quaternions := none
  _rotated_accelerations := [0.0]
  _data_packets := []
  _time_differences := [0.0]

/-- Source property `IMUDataProcessor.max_altitude`. -/
def max_altitude (s : IMUDataProcessor) : ℝ := s._max_altitude

/-- Source property `IMUDataProcessor.current_altitude`: the last entry of
`_current_altitudes` (Python `[-1]`; the list is non-empty in every
reachable state, so the default of `getLastD` is never taken). -/
def current_altitude (s : IMUDataProcessor) : ℝ := s._current_altitudes.getLastD 0

/-- Source property `IMUDataProcessor.vertical_velocity`: the last entry of
`_vertical_velocities` (Python `[-1]`; non-empty in every reachable state). -/
def vertical_velocity (s : IMUDataProcessor) : ℝ := s._vertical_velocities.getLastD 0

/-- Source property `IMUDataProcessor.max_vertical_velocity`. -/
def max_vertical_velocity (s : IMUDataProcessor) : ℝ := s._max_vertical_velocity

/-- Source property `IMUDataProcessor.current_timestamp`: the timestamp of
the last data packet; the `AttributeError` on `None` is caught and `0` is
returned. -/
def current_timestamp (s : IMUDataProcessor) : ℤ :=
  match s._last_data_packet with
  | some p => p.timestamp
  | none => 0

/-- Source `IMUDataProcessor._calculate_time_differences`: successive
differences of the timestamps of the previous batch's last packet followed
by the current batch, each multiplied by `1e-9` ("converting from ns to
s"). Reading `.timestamp` on a `None` last packet raises `AttributeError`. -/
noncomputable def calculate_time_differences (s : IMUDataProcessor) :
    Except PyError (List ℝ) :=
  match s._last_data_packet with
  | none => .error .attributeError
  | some last =>
      .ok (npDiff ((last :: s._data_packets).map
        (fun data_packet => (data_packet.timestamp : ℝ) * 1e-9)))

/-- Loop body of `IMUDataProcessor._calculate_rotated_accelerations`: walk
the batch and the (equal-length) time differences, composing the running
orientation with the incremental rotation `from_rotvec(gyro * dt)`, rotating
the body-frame acceleration with the updated orientation and emitting the
negated third component; returns the emitted list and the final
orientation. -/
noncomputable def rotatedAccelLoop :
    Quat → List IMUDataPacket → List ℝ → List ℝ × Quat
  | q, [], _ => ([], q)
  | q, _ :: _, [] => ([], q)
  | q, data_packet :: ps, dt :: dts =>
      let delta_rotation := from_rotvec (data_packet.estAngularRateX * dt)
        (data_packet.estAngularRateY * dt) (data_packet.estAngularRateZ * dt)
      let current_orientation := qmul q delta_rotation
      let rotated_accel := qapply current_orientation
        ⟨data_packet.estCompensatedAccelX, data_packet.estCompensatedAccelY,
         data_packet.estCompensatedAccelZ⟩
      let rest := rotatedAccelLoop current_orientation ps dts
      (-rotated_accel.z :: rest.1, rest.2)

/-- Source `IMUDataProcessor._calculate_rotated_accelerations`: runs the
loop from the stored orientation (a `None` orientation raises when first
multiplied). `_data_packets` and `_time_differences` always have equal
length at the call site inside `update`. -/
noncomputable def calculate_rotated_accelerations (s : IMUDataProcessor) :
    Except PyError (List ℝ × Quat) :=
  match s._current_orientation_quaternions with
  | none => .error .typeError
  | some q => .ok (rotatedAccelLoop q s._data_packets s._time_differences)

/-- Source `IMUDataProcessor._calculate_vertical_velocity`: subtract
gravity from each rotated vertical acceleration, deadband it, multiply
elementwise by the time differences, take cumulative sums and add the
velocity carried over from the previous batch. -/
noncomputable def calculate_vertical_velocity (s : IMUDataProcessor) : List ℝ :=
  let vertical_accelerations := s._rotated_accelerations.map
    (fun vertical_acceleration =>
      deadband (vertical_acceleration - GRAVITY_METERS_PER_SECOND_SQUARED)
        ACCEL_DEADBAND_METERS_PER_SECOND_SQUARED)
  (cumsum (List.zipWith (fun a dt => a * dt)
      vertical_accelerations s._time_differences)).map
    (fun c => s._previous_vertical_velocity + c)

/-- Source `IMUDataProcessor._calculate_current_altitudes`: each packet's
pressure altitude minus the initial altitude (a `None` initial altitude
would raise in the subtraction). -/
noncomputable def calculate_current_altitudes (s : IMUDataProcessor) :
    Except PyError (List ℝ) :=
  match s._initial_altitude with
  | none => .error .typeError
  | some initial_altitude =>
      .ok (s._data_packets.map
        (fun data_packet => data_packet.estPressureAlt - initial_altitude))

/-- Source `IMUDataProcessor._first_update`: set the last-packet reference
to the batch's first packet, the initial altitude to the mean pressure
altitude of the batch, and the orientation to the (normalized) quaternion
of the first packet; `_data_packets[0]` on an empty batch would raise
`IndexError` (unreachable through `update`). -/
noncomputable def first_update (s : IMUDataProcessor) :
    Except PyError IMUDataProcessor :=
  match s._data_packets with
  | [] => .error .indexError
  | p0 :: _ =>
      match from_quat_opt p0.estOrientQuaternionW p0.estOrientQuaternionX
          p0.estOrientQuaternionY p0.estOrientQuaternionZ with
      | .error e => .error e
      | .ok q =>
          .ok { s with
            _last_data_packet := some p0,
            _initial_altitude :=
              some (listMean (s._data_packets.map
                (fun data_packet => data_packet.estPressureAlt))),
            _current_orientation_quaternions := some q }

/-- Source `IMUDataProcessor.update`: an empty batch returns immediately;
otherwise store the batch, run `_first_update` if there is no last packet
yet, compute time differences, rotated accelerations (updating the
orientation), vertical velocities (updating the carried-over velocity and
the running maximum), current altitudes (updating the running maximum
altitude), and finally set the last-packet reference to the batch's last
packet. -/
noncomputable def update (s : IMUDataProcessor)
    (data_packets : List IMUDataPacket) : Except PyError IMUDataProcessor :=
  match data_packets with
  | [] => .ok s
  | p0 :: rest =>
    let s1 := { s with _data_packets := p0 :: rest }
    match (if s1._last_data_packet.isNone then first_update s1 else .ok s1) with
    | .error e => .error e
    | .ok s2 =>
      match calculate_time_differences s2 with
      | .error e => .error e
      | .ok tds =>
        let s3 := { s2 with _time_differences := tds }
        match calculate_rotated_accelerations s3 with
        | .error e => .error e
        | .ok raq =>
          let s4 := { s3 with
            _rotated_accelerations := raq.1,
            _current_orientation_quaternions := some raq.2 }
          let vels := calculate_vertical_velocity s4
          let s5 := { s4 with
            _vertical_velocities := vels,
            _previous_vertical_velocity :=
              vels.getLastD s4._previous_vertical_velocity,
            _max_vertical_velocity :=
              max (listMax vels) s4._max_vertical_velocity }
          match calculate_current_altitudes s5 with
          | .error e => .error e
          | .ok alts =>
            .ok { s5 with
              _current_altitudes := alts,
              _max_altitude := max (listMax alts) s5._max_altitude,
              _last_data_packet := some ((p0 :: rest).getLastD p0) }

end IMUDataProcessor

/-- Iterate `IMUDataProcessor.update` over a sequence of batches, stopping
at the first raised exception. -/
noncomputable def runUpdates (s : IMUDataProcessor)
    (batches : List (List IMUDataPacket)) : Except PyError IMUDataProcessor :=
  match batches with
  | [] => .ok s
  | b :: bs =>
      match s.update b with
      | .error e => .error e
      | .ok s2 => runUpdates s2 bs

namespace SubscaleSystem

/-- Source `main.py`, `SubscaleSystem.calculate_altitude`: barometric
altitude from pressure (Pa) and temperature (°C), given the configured
sea-level pressure; returns `None` when pressure is non-positive or
temperature is at or below `-273.15` °C (the `ZeroDivisionError` guard can
never fire after that check, and in exact real arithmetic the expression is
total). -/
noncomputable def calculate_altitude (sea_level_pressure pressure temperature : ℝ) :
    Option ℝ :=
  if pressure ≤ 0 ∨ temperature ≤ -273.15 then none
  else
    let T0 := temperature + 273.15
    let L : ℝ := 0.0065
    let Rconst : ℝ := 287.05
    let g : ℝ := 9.80665
    some ((T0 / L) * ((sea_level_pressure / pressure) ^ (Rconst * L / g) - 1))

/-- Source `main.py`, `SubscaleSystem.MINIMUM_ARM_ACCEL` (m/s²). -/
noncomputable def MINIMUM_ARM_ACCEL : ℝ := 50

/-- Source `main.py`, `SubscaleSystem.MAXIMUM_REST_ACCEL` (m/s²). -/
noncomputable def MAXIMUM_REST_ACCEL : ℝ := 0.4

/-- Source `main.py`, `SubscaleSystem.MAXIMUM_REST_ALT` (m). -/
noncomputable def MAXIMUM_REST_ALT : ℝ := 2

end SubscaleSystem

/-- Source `main.py` / `spaceducks/Subscale.py`, `LaunchState`: the flight
phases. -/
inductive LaunchState : Type
  | STANDBY
  | ARMED
  | LANDED
  deriving DecidableEq

/-- Source `main.py`, `SubscaleSystem.__init__`: the initial flight phase. -/
def initialLaunchState : LaunchState := .STANDBY

/-- Modelled from the spec: the sources only declare `LaunchState` and the
thresholds (`SubscaleSystem` in `main.py` and `PayloadSystem` in
`spaceducks/Subscale.py` set `self.state = LaunchState.STANDBY` but contain
no transition code), so the transition function follows spec §4.4: STANDBY
arms when the acceleration magnitude exceeds the launch-detect threshold;
ARMED lands only when the acceleration magnitude is below the rest
threshold and the zeroed altitude is below the near-ground threshold
simultaneously; LANDED is terminal. -/
noncomputable def launchStep (st : LaunchState) (accel_magnitude zeroed_altitude : ℝ) :
    LaunchState :=
  match st with
  | .STANDBY =>
      if accel_magnitude > SubscaleSystem.MINIMUM_ARM_ACCEL then .ARMED else .STANDBY
  | .ARMED =>
      if accel_magnitude < SubscaleSystem.MAXIMUM_REST_ACCEL ∧
          zeroed_altitude < SubscaleSystem.MAXIMUM_REST_ALT then .LANDED else .ARMED
  | .LANDED => .LANDED

/-- Run the flight-phase machine over a trace of (acceleration magnitude,
zeroed altitude) observations. -/
noncomputable def runLaunch (st : LaunchState) (trace : List (ℝ × ℝ)) : LaunchState :=
  match trace with
  | [] => st
  | ob :: obs => runLaunch (launchStep st ob.1 ob.2) obs

/-- Normalization of a quaternion given by components (the value scipy
`from_quat` returns when the norm is non-zero). -/
noncomputable def normalizeQ (w x y z : ℝ) : Quat :=
  let n := qnorm ⟨w, x, y, z⟩
  ⟨w / n, x / n, y / n, z / n⟩

namespace IMUDataProcessor

/-- Explicit normal form of a successful non-empty `update` call: given the
last-packet reference `l`, the orientation `q` and the initial altitude `a`
in effect when the numerical pipeline runs, this is the state `update`
returns. The lemmas `update_ok_of_ready`, `update_ok_first` and
`update_cons_ok_inv` below prove that every successful non-empty `update`
call produces exactly a state of this form. -/
noncomputable def updateResult (s : IMUDataProcessor) (p0 : IMUDataPacket)
    (rest : List IMUDataPacket) (l : IMUDataPacket) (q : Quat) (a : ℝ) :
    IMUDataProcessor :=
  let ps := p0 :: rest
  let tds := npDiff ((l :: ps).map fun p => (p.timestamp : ℝ) * 1e-9)
  let raq := rotatedAccelLoop q ps tds
  let vels := (cumsum (List.zipWith (fun x dt => x * dt)
      (raq.1.map fun r =>
        deadband (r - GRAVITY_METERS_PER_SECOND_SQUARED)
          ACCEL_DEADBAND_METERS_PER_SECOND_SQUARED) tds)).map
      (fun c => s._previous_vertical_velocity + c)
  let alts := ps.map fun p => p.estPressureAlt - a
  { _max_altitude := max (listMax alts) s._max_altitude,
    _vertical_velocities := vels,
    _max_vertical_velocity := max (listMax vels) s._max_vertical_velocity,
    _previous_vertical_velocity := vels.getLastD s._previous_vertical_velocity,
    _initial_altitude := some a,
    _current_altitudes := alts,
    _last_data_packet := some (ps.getLastD p0),
    _current_orientation_quaternions := some raq.2,
    _rotated_accelerations := raq.1,
    _data_packets := ps,
    _time_differences := tds }

end IMUDataProcessor

/-- Concrete packet: at rest at pressure altitude 350 m, identity
orientation quaternion, timestamp 10⁹ (1 s at the nanosecond scale the
processor assumes). -/
noncomputable def pktA : IMUDataPacket where
  timestamp := 1000000000
  estPressureAlt := 350
  estCompensatedAccelX := 0
  estCompensatedAccelY := 0
  estCompensatedAccelZ := -9.80665
  estAngularRateX := 0
  estAngularRateY := 0
  estAngularRateZ := 0
  estOrientQuaternionW := some 1
  estOrientQuaternionX := some 0
  estOrientQuaternionY := some 0
  estOrientQuaternionZ := some 0

/-- Concrete packet with no orientation quaternion supplied. -/
noncomputable def pktNoQuat : IMUDataPacket where
  timestamp := 1000000000
  estPressureAlt := 350
  estCompensatedAccelX := 0
  estCompensatedAccelY := 0
  estCompensatedAccelZ := -9.80665
  estAngularRateX := 0
  estAngularRateY := 0
  estAngularRateZ := 0

/-- Concrete packet whose timestamp (0) precedes `pktA`'s: prepending
`pktA` gives a negative time delta. Its net vertical acceleration after
gravity removal is 11 m/s². -/
noncomputable def pktNeg : IMUDataPacket where
  timestamp := 0
  estPressureAlt := 349
  estCompensatedAccelX := 0
  estCompensatedAccelY := 0
  estCompensatedAccelZ := -20.80665
  estAngularRateX := 0
  estAngularRateY := 0
  estAngularRateZ := 0

/-- Concrete packet family: sample `k` of a constant-thrust sequence, 20 ms
(2·10⁷ ns) apart, with net vertical acceleration 11 m/s² after gravity
removal. -/
noncomputable def pktB (k : ℤ) : IMUDataPacket where
  timestamp := 1000000000 + 20000000 * k
  estPressureAlt := 350
  estCompensatedAccelX := 0
  estCompensatedAccelY := 0
  estCompensatedAccelZ := -20.80665
  estAngularRateX := 0
  estAngularRateY := 0
  estAngularRateZ := 0

/-- Ten constant-thrust samples at 0.02 s spacing (following `pktA`). -/
noncomputable def batchB : List IMUDataPacket :=
  [pktB 1, pktB 2, pktB 3, pktB 4, pktB 5, pktB 6, pktB 7, pktB 8, pktB 9, pktB 10]

/-- Concrete packet with a millisecond-scale timestamp of 0. -/
noncomputable def pktMs0 : IMUDataPacket where
  timestamp := 0
  estPressureAlt := 350
  estCompensatedAccelX := 0
  estCompensatedAccelY := 0
  estCompensatedAccelZ := -9.80665
  estAngularRateX := 0
  estAngularRateY := 0
  estAngularRateZ := 0

/-- Concrete packet 20 ms after `pktMs0` on the millisecond timestamp scale
that `IMUDataPacket` declares. -/
noncomputable def pktMs20 : IMUDataPacket where
  timestamp := 20
  estPressureAlt := 350
  estCompensatedAccelX := 0
  estCompensatedAccelY := 0
  estCompensatedAccelZ := -9.80665
  estAngularRateX := 0
  estAngularRateY := 0
  estAngularRateZ := 0

/-- The processor state after `update init [pktA]` (hand-computed). -/
noncomputable def s1val : IMUDataProcessor where
  _max_altitude := 0
  _vertical_velocities := [0]
  _max_vertical_velocity := 0
  _previous_vertical_velocity := 0
  _initial_altitude := some 350
  _current_altitudes := [0]
  _last_data_packet := some pktA
  _current_orientation_quaternions := some idQ
  _rotated_accelerations := [9.80665]
  _data_packets := [pktA]
  _time_differences := [0]

/-- The processor state after `update s1val batchB` (hand-computed): ten
velocity samples climbing by 0.22 m/s per step up to 2.2 m/s. -/
noncomputable def s2valB : IMUDataProcessor where
  _max_altitude := 0
  _vertical_velocities := [0.22, 0.44, 0.66, 0.88, 1.1, 1.32, 1.54, 1.76, 1.98, 2.2]
  _max_vertical_velocity := 2.2
  _previous_vertical_velocity := 2.2
  _initial_altitude := some 350
  _current_altitudes := [0, 0, 0, 0, 0, 0, 0, 0, 0, 0]
  _last_data_packet := some (pktB 10)
  _current_orientation_quaternions := some idQ
  _rotated_accelerations :=
    [20.80665, 20.80665, 20.80665, 20.80665, 20.80665,
     20.80665, 20.80665, 20.80665, 20.80665, 20.80665]
  _data_packets := batchB
  _time_differences := [0.02, 0.02, 0.02, 0.02, 0.02, 0.02, 0.02, 0.02, 0.02, 0.02]

/-- The processor state after `update s2valB [pktB 11]` (hand-computed):
the velocity continues from the carried-over 2.2 m/s to 2.42 m/s. -/
noncomputable def s3val : IMUDataProcessor where
  _max_altitude := 0
  _vertical_velocities := [2.42]
  _max_vertical_velocity := 2.42
  _previous_vertical_velocity := 2.42
  _initial_altitude := some 350
  _current_altitudes := [0]
  _last_data_packet := some (pktB 11)
  _current_orientation_quaternions := some idQ
  _rotated_accelerations := [20.80665]
  _data_packets := [pktB 11]
  _time_differences := [0.02]

/-- The processor state after `update s1val [pktNeg]` (hand-computed): the
time delta is −1 s, no error is raised, and the velocity integrates to
−11 m/s. -/
noncomputable def s2valNeg : IMUDataProcessor where
  _max_altitude := 0
  _vertical_velocities := [-11]
  _max_vertical_velocity := 0
  _previous_vertical_velocity := -11
  _initial_altitude := some 350
  _current_altitudes := [-1]
  _last_data_packet := some pktNeg
  _current_orientation_quaternions := some idQ
  _rotated_accelerations := [20.80665]
  _data_packets := [pktNeg]
  _time_differences := [-1]

/-- A processor state holding `pktMs0` as the previous packet with
`[pktMs20]` as the current batch, for examining the time-difference
computation on millisecond-scale timestamps. -/
noncomputable def sMsval : IMUDataProcessor :=
  { IMUDataProcessor.init with
    _last_data_packet := some pktMs0,
    _data_packets := [pktMs20] }

lemma qmul_idQ_left (q : Quat) : qmul idQ q = q := by
  cases q
  simp [qmul, idQ]

lemma qmul_idQ_right (q : Quat) : qmul q idQ = q := by
  cases q
  simp [qmul, idQ]

lemma qconj_idQ : qconj idQ = idQ := by
  simp [qconj, idQ]

lemma qapply_idQ (v : Vec3) : qapply idQ v = v := by
  cases v
  simp [qapply, qmul, qconj, idQ]

lemma from_rotvec_zero : from_rotvec 0 0 0 = idQ := by
  simp [from_rotvec, idQ]

lemma from_quat_opt_some (w x y z : ℝ) (hn : qnorm ⟨w, x, y, z⟩ ≠ 0) :
    from_quat_opt (some w) (some x) (some y) (some z) = .ok (normalizeQ w x y z) := by
  simp [from_quat_opt, normalizeQ, hn]

lemma qnorm_one_zero_zero_zero : qnorm ⟨1, 0, 0, 0⟩ = 1 := by
  simp [qnorm]

lemma normalizeQ_identity : normalizeQ 1 0 0 0 = idQ := by
  simp [normalizeQ, qnorm_one_zero_zero_zero, idQ]

lemma le_foldl_max (b : ℝ) : ∀ l : List ℝ, b ≤ l.foldl max b := by
  intro l
  induction l generalizing b with
  | nil => exact le_refl b
  | cons h t ih => exact le_trans (le_max_left b h) (ih (max b h))

lemma mem_le_foldl_max (x b : ℝ) : ∀ l : List ℝ, x ∈ l → x ≤ l.foldl max b := by
  intro l
  induction l generalizing b with
  | nil => intro hx; cases hx
  | cons h t ih =>
      intro hx
      rcases List.mem_cons.mp hx with h1 | h2
      · subst h1
        exact le_trans (le_max_right b x) (le_foldl_max (max b x) t)
      · exact ih (max b h) h2

lemma le_listMax {x : ℝ} {l : List ℝ} (hx : x ∈ l) : x ≤ listMax l := by
  cases l with
  | nil => cases hx
  | cons h t =>
      rcases List.mem_cons.mp hx with h1 | h2
      · subst h1
        exact le_foldl_max x t
      · exact mem_le_foldl_max x h t h2

lemma cumsumFrom_get :
    ∀ (l : List ℝ) (acc : ℝ) (i : ℕ) (hi : i < (cumsumFrom acc l).length),
      (cumsumFrom acc l).get ⟨i, hi⟩ = acc + ((l.take (i + 1)).sum) := by
  intro l
  induction l with
  | nil => intro acc i hi; simp [cumsumFrom] at hi
  | cons h t ih =>
      intro acc i hi
      cases i with
      | zero => simp [cumsumFrom]
      | succ j =>
          have hj : j < (cumsumFrom (acc + h) t).length := by
            simpa [cumsumFrom] using hi
          have := ih (acc + h) j hj
          simp only [cumsumFrom, List.get_cons_succ, List.take_succ_cons,
            List.sum_cons] at this ⊢
          rw [this]
          ring

lemma cumsum_get (l : List ℝ) (i : ℕ) (hi : i < (cumsum l).length) :
    (cumsum l).get ⟨i, hi⟩ = ((l.take (i + 1)).sum) := by
  have := cumsumFrom_get l 0 i hi
  simpa [cumsum] using this

lemma npDiff_map_mul (c : ℝ) : ∀ l : List ℝ,
    npDiff (l.map fun x => x * c) = (npDiff l).map fun d => d * c := by
  intro l
  induction l with
  | nil => simp [npDiff]
  | cons a t ih =>
      cases t with
      | nil => simp [npDiff]
      | cons b t2 =>
          simp only [List.map_cons, npDiff, List.map] at ih ⊢
          rw [show b * c - a * c = (b - a) * c by ring]
          rw [ih]

lemma rotatedAccelLoop_trivial :
    ∀ (ps : List IMUDataPacket) (dts : List ℝ),
      (∀ p ∈ ps, p.estAngularRateX = 0 ∧ p.estAngularRateY = 0 ∧
        p.estAngularRateZ = 0) →
      IMUDataProcessor.rotatedAccelLoop idQ ps dts =
        (List.zipWith (fun p _ => -p.estCompensatedAccelZ) ps dts, idQ) := by
  intro ps
  induction ps with
  | nil => intro dts _; cases dts <;> simp [IMUDataProcessor.rotatedAccelLoop]
  | cons p ps ih =>
      intro dts hps
      cases dts with
      | nil => simp [IMUDataProcessor.rotatedAccelLoop]
      | cons dt dts =>
          obtain ⟨hx, hy, hz⟩ := hps p (List.mem_cons_self p ps)
          have hrest : ∀ q ∈ ps, q.estAngularRateX = 0 ∧ q.estAngularRateY = 0 ∧
              q.estAngularRateZ = 0 :=
            fun q hq => hps q (List.mem_cons_of_mem p hq)
          simp only [IMUDataProcessor.rotatedAccelLoop, hx, hy, hz, zero_mul,
            from_rotvec_zero, qmul_idQ_right, qapply_idQ, ih dts hrest,
            List.zipWith_cons_cons]

namespace IMUDataProcessor

lemma update_nil (s : IMUDataProcessor) : s.update [] = .ok s := rfl

lemma update_ok_of_ready (s : IMUDataProcessor) (p0 : IMUDataPacket)
    (rest : List IMUDataPacket) (l : IMUDataPacket) (q : Quat) (a : ℝ)
    (hlast : s._last_data_packet = some l)
    (hq : s._current_orientation_quaternions = some q)
    (ha : s._initial_altitude = some a) :
    s.update (p0 :: rest) = .ok (updateResult s p0 rest l q a) := by
  simp [update, updateResult, calculate_time_differences,
    calculate_rotated_accelerations, calculate_vertical_velocity,
    calculate_current_altitudes, hlast, hq, ha]

lemma update_ok_first (s : IMUDataProcessor) (p0 : IMUDataPacket)
    (rest : List IMUDataPacket) (w x y z : ℝ)
    (hlast : s._last_data_packet = none)
    (hw : p0.estOrientQuaternionW = some w)
    (hx : p0.estOrientQuaternionX = some x)
    (hy : p0.estOrientQuaternionY = some y)
    (hz : p0.estOrientQuaternionZ = some z)
    (hn : qnorm ⟨w, x, y, z⟩ ≠ 0) :
    s.update (p0 :: rest) =
      .ok (updateResult s p0 rest p0 (normalizeQ w x y z)
        (listMean ((p0 :: rest).map fun p => p.estPressureAlt))) := by
  simp [update, first_update, updateResult, from_quat_opt, normalizeQ,
    calculate_time_differences, calculate_rotated_accelerations,
    calculate_vertical_velocity, calculate_current_altitudes,
    hlast, hw, hx, hy, hz, hn]

lemma update_cons_ok_inv {s : IMUDataProcessor} {p0 : IMUDataPacket}
    {rest : List IMUDataPacket} {s2 : IMUDataProcessor}
    (h : s.update (p0 :: rest) = .ok s2) :
    ∃ l q a, s2 = updateResult s p0 rest l q a := by
  cases hlast : s._last_data_packet with
  | some l =>
      cases hq : s._current_orientation_quaternions with
      | none =>
          simp [update, calculate_time_differences,
            calculate_rotated_accelerations, hlast, hq] at h
      | some q =>
          cases ha : s._initial_altitude with
          | none =>
              simp [update, calculate_time_differences,
                calculate_rotated_accelerations, calculate_current_altitudes,
                hlast, hq, ha] at h
          | some a =>
              refine ⟨l, q, a, ?_⟩
              have := update_ok_of_ready s p0 rest l q a hlast hq ha
              rw [this] at h
              exact (Except.ok.inj h).symm
  | none =>
      cases hw : p0.estOrientQuaternionW with
      | none =>
          simp [update, first_update, from_quat_opt, hlast, hw] at h
      | some w =>
      cases hx : p0.estOrientQuaternionX with
      | none =>
          simp [update, first_update, from_quat_opt, hlast, hw, hx] at h
      | some x =>
      cases hy : p0.estOrientQuaternionY with
      | none =>
          simp [update, first_update, from_quat_opt, hlast, hw, hx, hy] at h
      | some y =>
      cases hz : p0.estOrientQuaternionZ with
      | none =>
          simp [update, first_update, from_quat_opt, hlast, hw, hx, hy, hz] at h
      | some z =>
      by_cases hn : qnorm ⟨w, x, y, z⟩ = 0
      · simp [update, first_update, from_quat_opt, hlast, hw, hx, hy, hz, hn] at h
      · refine ⟨p0, normalizeQ w x y z,
          listMean ((p0 :: rest).map fun p => p.estPressureAlt), ?_⟩
        have := update_ok_first s p0 rest w x y z hlast hw hx hy hz hn
        rw [this] at h
        exact (Except.ok.inj h).symm

end IMUDataProcessor

lemma qnorm_pktA_ne : qnorm ⟨1, 0, 0, 0⟩ ≠ (0 : ℝ) := by
  rw [qnorm_one_zero_zero_zero]
  norm_num

lemma update_init_pktA :
    IMUDataProcessor.init.update [pktA] = .ok s1val := by
  have h := IMUDataProcessor.update_ok_first IMUDataProcessor.init pktA [] 1 0 0 0
    rfl rfl rfl rfl rfl qnorm_pktA_ne
  rw [h, normalizeQ_identity]
  congr 1
  norm_num [IMUDataProcessor.updateResult, s1val, pktA, IMUDataProcessor.init,
    IMUDataProcessor.rotatedAccelLoop, from_rotvec_zero, qmul_idQ_right,
    qmul_idQ_left, qapply_idQ, deadband, npDiff, cumsum, cumsumFrom, listMax,
    listMean]

lemma update_s1val_batchB :
    s1val.update batchB = .ok s2valB := by
  have h := IMUDataProcessor.update_ok_of_ready s1val (pktB 1)
    [pktB 2, pktB 3, pktB 4, pktB 5, pktB 6, pktB 7, pktB 8, pktB 9, pktB 10]
    pktA idQ 350 rfl rfl rfl
  rw [show batchB = pktB 1 ::
    [pktB 2, pktB 3, pktB 4, pktB 5, pktB 6, pktB 7, pktB 8, pktB 9, pktB 10]
    from rfl, h]
  congr 1
  norm_num [IMUDataProcessor.updateResult, s1val, s2valB, pktA, pktB, batchB,
    IMUDataProcessor.rotatedAccelLoop, from_rotvec_zero, qmul_idQ_right,
    qmul_idQ_left, qapply_idQ, deadband, npDiff, cumsum, cumsumFrom, listMax,
    listMean, GRAVITY_METERS_PER_SECOND_SQUARED,
    ACCEL_DEADBAND_METERS_PER_SECOND_SQUARED]

lemma update_s2valB_pktC :
    s2valB.update [pktB 11] = .ok s3val := by
  have h := IMUDataProcessor.update_ok_of_ready s2valB (pktB 11) []
    (pktB 10) idQ 350 rfl rfl rfl
  rw [h]
  congr 1
  norm_num [IMUDataProcessor.updateResult, s2valB, s3val, pktB,
    IMUDataProcessor.rotatedAccelLoop, from_rotvec_zero, qmul_idQ_right,
    qmul_idQ_left, qapply_idQ, deadband, npDiff, cumsum, cumsumFrom, listMax,
    listMean, GRAVITY_METERS_PER_SECOND_SQUARED,
    ACCEL_DEADBAND_METERS_PER_SECOND_SQUARED]

lemma update_s1val_pktNeg :
    s1val.update [pktNeg] = .ok s2valNeg := by
  have h := IMUDataProcessor.update_ok_of_ready s1val pktNeg []
    pktA idQ 350 rfl rfl rfl
  rw [h]
  congr 1
  norm_num [IMUDataProcessor.updateResult, s1val, s2valNeg, pktA, pktNeg,
    IMUDataProcessor.rotatedAccelLoop, from_rotvec_zero, qmul_idQ_right,
    qmul_idQ_left, qapply_idQ, deadband, npDiff, cumsum, cumsumFrom, listMax,
    listMean, GRAVITY_METERS_PER_SECOND_SQUARED,
    ACCEL_DEADBAND_METERS_PER_SECOND_SQUARED]

lemma update_init_pktNoQuat :
    IMUDataProcessor.init.update [pktNoQuat] = .error .typeError := by
  simp [IMUDataProcessor.update, IMUDataProcessor.first_update, from_quat_opt,
    IMUDataProcessor.init, pktNoQuat]

namespace IMUDataProcessor

lemma update_step_mono {s : IMUDataProcessor} {b : List IMUDataPacket}
    {s2 : IMUDataProcessor} (h : s.update b = .ok s2) :
    s._max_vertical_velocity ≤ s2._max_vertical_velocity ∧
      s._max_altitude ≤ s2._max_altitude := by
  cases b with
  | nil =>
      rw [update_nil] at h
      cases Except.ok.inj h
      exact ⟨le_refl _, le_refl _⟩
  | cons p0 rest =>
      obtain ⟨l, q, a, rfl⟩ := update_cons_ok_inv h
      exact ⟨le_max_right _ _, le_max_right _ _⟩

lemma update_step_inv {s : IMUDataProcessor} {b : List IMUDataPacket}
    {s2 : IMUDataProcessor} (h : s.update b = .ok s2)
    (hs : (∀ v ∈ s._vertical_velocities, v ≤ s._max_vertical_velocity) ∧
      (∀ alt ∈ s._current_altitudes, alt ≤ s._max_altitude)) :
    (∀ v ∈ s2._vertical_velocities, v ≤ s2._max_vertical_velocity) ∧
      (∀ alt ∈ s2._current_altitudes, alt ≤ s2._max_altitude) := by
  cases b with
  | nil =>
      rw [update_nil] at h
      cases Except.ok.inj h
      exact hs
  | cons p0 rest =>
      obtain ⟨l, q, a, rfl⟩ := update_cons_ok_inv h
      constructor
      · intro v hv
        exact le_trans (le_listMax hv) (le_max_left _ _)
      · intro alt halt
        exact le_trans (le_listMax halt) (le_max_left _ _)

lemma runUpdates_mono :
    ∀ (bs : List (List IMUDataPacket)) (s sf : IMUDataProcessor),
      runUpdates s bs = .ok sf →
      s._max_vertical_velocity ≤ sf._max_vertical_velocity ∧
        s._max_altitude ≤ sf._max_altitude := by
  intro bs
  induction bs with
  | nil =>
      intro s sf h
      cases Except.ok.inj h
      exact ⟨le_refl _, le_refl _⟩
  | cons b bs ih =>
      intro s sf h
      unfold runUpdates at h
      cases hu : s.update b with
      | error e => rw [hu] at h; cases h
      | ok s2 =>
          rw [hu] at h
          obtain ⟨h1, h2⟩ := update_step_mono hu
          obtain ⟨h3, h4⟩ := ih s2 sf h
          exact ⟨le_trans h1 h3, le_trans h2 h4⟩

lemma runUpdates_inv :
    ∀ (bs : List (List IMUDataPacket)) (s sf : IMUDataProcessor),
      runUpdates s bs = .ok sf →
      ((∀ v ∈ s._vertical_velocities, v ≤ s._max_vertical_velocity) ∧
        (∀ alt ∈ s._current_altitudes, alt ≤ s._max_altitude)) →
      (∀ v ∈ sf._vertical_velocities, v ≤ sf._max_vertical_velocity) ∧
        (∀ alt ∈ sf._current_altitudes, alt ≤ sf._max_altitude) := by
  intro bs
  induction bs with
  | nil =>
      intro s sf h hs
      cases Except.ok.inj h
      exact hs
  | cons b bs ih =>
      intro s sf h hs
      unfold runUpdates at h
      cases hu : s.update b with
      | error e => rw [hu] at h; cases h
      | ok s2 =>
          rw [hu] at h
          exact ih s2 sf h (update_step_inv hu hs)

end IMUDataProcessor

/-- C4: for every input value x and threshold t, `deadband x t` is exactly
0.0 when |x| < t and exactly x otherwise; in particular an input of 0.05
with threshold 0.1 yields exactly 0.0, and an input of 0.5 with threshold
0.1 passes through unchanged. -/
theorem deadband_exact_spec (x t : ℝ) :
    (|x| < t → deadband x t = 0.0) ∧ (¬ |x| < t → deadband x t = x) ∧
    deadband 0.05 0.1 = 0.0 ∧ deadband 0.5 0.1 = 0.5 := by
  refine ⟨fun h => if_pos h, fun h => if_neg h, ?_, ?_⟩ <;>
    norm_num [deadband, abs_of_nonneg]

/-- C4 witness: the two concrete instances, obtained by applying
`deadband_exact_spec` with the concrete threshold comparisons discharged. -/
theorem deadband_exact_spec_witness :
    (|(0.05 : ℝ)| < 0.1 ∧ deadband 0.05 0.1 = 0.0) ∧
    (¬ |(0.5 : ℝ)| < 0.1 ∧ deadband 0.5 0.1 = 0.5) :=
  ⟨⟨by norm_num [abs_of_nonneg],
    (deadband_exact_spec 0.05 0.1).1 (by norm_num [abs_of_nonneg])⟩,
   ⟨by norm_num [abs_of_nonneg],
    (deadband_exact_spec 0.5 0.1).2.1 (by norm_num [abs_of_nonneg])⟩⟩

/-- C8: `calculate_altitude` returns `none` (never a fabricated number, and
never an exception — the function is total) whenever pressure is
non-positive or absolute temperature (temperature + 273.15 K) is
non-positive; when both are positive the division base `pressure` in the
barometric exponentiation is non-zero and a numeric altitude is returned. -/
theorem calculate_altitude_guard (sea_level_pressure pressure temperature : ℝ) :
    (pressure ≤ 0 ∨ temperature + 273.15 ≤ 0 →
      SubscaleSystem.calculate_altitude sea_level_pressure pressure temperature
        = none) ∧
    (0 < pressure → 0 < temperature + 273.15 →
      ∃ alt, SubscaleSystem.calculate_altitude sea_level_pressure pressure
        temperature = some alt) := by
  constructor
  · intro h
    have hc : pressure ≤ 0 ∨ temperature ≤ -273.15 := by
      rcases h with h | h
      · exact Or.inl h
      · exact Or.inr (by linarith)
    unfold SubscaleSystem.calculate_altitude
    rw [if_pos hc]
  · intro h1 h2
    have hc : ¬ (pressure ≤ 0 ∨ temperature ≤ -273.15) := by
      push_neg
      exact ⟨h1, by linarith⟩
    have hsome : (SubscaleSystem.calculate_altitude sea_level_pressure pressure
        temperature).isSome := by
      unfold SubscaleSystem.calculate_altitude
      rw [if_neg hc]
      rfl
    exact Option.isSome_iff_exists.mp hsome

/-- C8 witness: a non-positive pressure of −1 Pa at 20 °C yields `none`,
via `calculate_altitude_guard`. -/
theorem calculate_altitude_guard_witness :
    ((-1 : ℝ) ≤ 0 ∨ (20 : ℝ) + 273.15 ≤ 0) ∧
    SubscaleSystem.calculate_altitude 101325 (-1) 20 = none :=
  ⟨Or.inl (by norm_num),
   (calculate_altitude_guard 101325 (-1) 20).1 (Or.inl (by norm_num))⟩

/-- C10: before the first `update` call every public query of
`IMUDataProcessor` is defined and returns the fixed defaults: the altitude
and velocity queries return 0.0 and `current_timestamp` returns 0 (the
`AttributeError` from the absent last packet is caught internally). -/
theorem initial_queries_default :
    IMUDataProcessor.init.max_altitude = 0.0 ∧
    IMUDataProcessor.init.current_altitude = 0.0 ∧
    IMUDataProcessor.init.vertical_velocity = 0.0 ∧
    IMUDataProcessor.init.max_vertical_velocity = 0.0 ∧
    IMUDataProcessor.init.current_timestamp = 0 := by
  refine ⟨rfl, ?_, ?_, rfl, rfl⟩ <;>
    simp [IMUDataProcessor.current_altitude, IMUDataProcessor.vertical_velocity,
      IMUDataProcessor.init]

/-- C7: the flight phase starts at STANDBY; STANDBY transitions
(exclusively to ARMED) exactly when the acceleration magnitude exceeds the
50 m/s² launch-detect threshold; ARMED transitions (exclusively to LANDED)
exactly when the acceleration magnitude is below the 0.4 m/s² rest
threshold and the zeroed altitude is below the 2 m near-ground threshold
simultaneously; every step either stays in place or moves one state
forward (no skip, no backward move), and LANDED is absorbing for every
further trace. The transition function is modelled from spec §4.4; the
initial state and the three thresholds are from `main.py`. -/
theorem launch_state_machine_spec :
    initialLaunchState = LaunchState.STANDBY ∧
    SubscaleSystem.MINIMUM_ARM_ACCEL = 50 ∧
    SubscaleSystem.MAXIMUM_REST_ACCEL = 0.4 ∧
    SubscaleSystem.MAXIMUM_REST_ALT = 2 ∧
    (∀ a h : ℝ, launchStep .STANDBY a h = .ARMED ↔
      a > SubscaleSystem.MINIMUM_ARM_ACCEL) ∧
    (∀ a h : ℝ, launchStep .ARMED a h = .LANDED ↔
      (a < SubscaleSystem.MAXIMUM_REST_ACCEL ∧
        h < SubscaleSystem.MAXIMUM_REST_ALT)) ∧
    (∀ (st : LaunchState) (a h : ℝ),
      launchStep st a h = st ∨
      (st = .STANDBY ∧ launchStep st a h = .ARMED) ∨
      (st = .ARMED ∧ launchStep st a h = .LANDED)) ∧
    (∀ trace : List (ℝ × ℝ), runLaunch .LANDED trace = .LANDED) := by
  refine ⟨rfl, rfl, rfl, rfl, ?_, ?_, ?_, ?_⟩
  · intro a h
    by_cases hc : a > SubscaleSystem.MINIMUM_ARM_ACCEL <;>
      simp [launchStep, hc]
  · intro a h
    by_cases hc : a < SubscaleSystem.MAXIMUM_REST_ACCEL ∧
        h < SubscaleSystem.MAXIMUM_REST_ALT <;>
      simp [launchStep, hc]
  · intro st a h
    cases st with
    | STANDBY =>
        by_cases hc : a > SubscaleSystem.MINIMUM_ARM_ACCEL <;>
          simp [launchStep, hc]
    | ARMED =>
        by_cases hc : a < SubscaleSystem.MAXIMUM_REST_ACCEL ∧
            h < SubscaleSystem.MAXIMUM_REST_ALT <;>
          simp [launchStep, hc]
    | LANDED => simp [launchStep]
  · intro trace
    induction trace with
    | nil => rfl
    | cons ob obs ih => simpa [runLaunch, launchStep] using ih

/-- C7 witness: concrete transitions obtained through
`launch_state_machine_spec`: 60 m/s² arms from STANDBY, (0.2 m/s², 0.5 m)
lands from ARMED, and LANDED absorbs a further observation. -/
theorem launch_state_machine_spec_witness :
    launchStep .STANDBY 60 10 = .ARMED ∧
    launchStep .ARMED 0.2 0.5 = .LANDED ∧
    runLaunch .LANDED [(100, 100)] = .LANDED :=
  ⟨(launch_state_machine_spec.2.2.2.2.1 60 10).mpr
      (by norm_num [SubscaleSystem.MINIMUM_ARM_ACCEL]),
   (launch_state_machine_spec.2.2.2.2.2.1 0.2 0.5).mpr
      (by norm_num [SubscaleSystem.MAXIMUM_REST_ACCEL,
        SubscaleSystem.MAXIMUM_REST_ALT]),
   launch_state_machine_spec.2.2.2.2.2.2.2 [(100, 100)]⟩

/-- C1 (amended): `IMUDataProcessor.update` performs no
timestamp-monotonicity validation. For any state whose last-packet
reference, orientation and initial altitude are set, and any non-empty
batch — including one whose timestamps decrease, which makes some raw time
delta negative — `update` reports no error: it returns a new state whose
time differences are exactly the raw (possibly negative) diffs, which flow
into the integration, and whose last-packet reference has advanced to the
batch's last packet. -/
theorem update_accepts_nonmonotonic_batches (s : IMUDataProcessor)
    (p0 : IMUDataPacket) (rest : List IMUDataPacket) (l : IMUDataPacket)
    (q : Quat) (a : ℝ) (hlast : s._last_data_packet = some l)
    (hq : s._current_orientation_quaternions = some q)
    (ha : s._initial_altitude = some a) :
    ∃ s2, s.update (p0 :: rest) = .ok s2 ∧
      s2._time_differences =
        npDiff ((l :: p0 :: rest).map fun p => (p.timestamp : ℝ) * 1e-9) ∧
      s2._last_data_packet = some ((p0 :: rest).getLastD p0) ∧
      s2._data_packets = p0 :: rest :=
  ⟨IMUDataProcessor.updateResult s p0 rest l q a,
   IMUDataProcessor.update_ok_of_ready s p0 rest l q a hlast hq ha,
   rfl, rfl, rfl⟩

/-- C1 witness: applying `update_accepts_nonmonotonic_batches` to the
concrete state after the first batch and a packet with an earlier
timestamp: the call succeeds (no error is reported to the caller). -/
theorem update_accepts_nonmonotonic_batches_witness :
    s1val._last_data_packet = some pktA ∧
    pktNeg.timestamp < pktA.timestamp ∧
    (s1val.update [pktNeg]).toOption.isSome = true := by
  refine ⟨rfl, by norm_num [pktNeg, pktA], ?_⟩
  obtain ⟨s2, h1, -, -, -⟩ :=
    update_accepts_nonmonotonic_batches s1val pktNeg [] pktA idQ 350 rfl rfl rfl
  rw [h1]
  rfl

/-- C1 counterexample: the batch `[pktNeg]` after `[pktA]` has a negative
time delta (−1 s), yet `update` returns `.ok` (no recoverable error is
reported) and the internal state is not left as it was: the carried-over
velocity and the last-packet reference both change. -/
theorem nonmonotonic_batch_not_rejected :
    s1val.update [pktNeg] = .ok s2valNeg ∧
    s2valNeg._time_differences = [(-1 : ℝ)] ∧
    s2valNeg._previous_vertical_velocity ≠ s1val._previous_vertical_velocity ∧
    s2valNeg._last_data_packet ≠ s1val._last_data_packet := by
  refine ⟨update_s1val_pktNeg, rfl, by norm_num [s2valNeg, s1val], ?_⟩
  norm_num [s2valNeg, s1val, pktNeg, pktA]

/-- C5 (amended): on the first update the orientation state is initialized
to the normalization of the first sample's orientation quaternion, and the
last-sample reference is set to the batch's first sample so that the first
computed time difference is exactly zero. (When the sample does not supply
a quaternion, `update` raises a TypeError instead of falling back to the
identity quaternion — see the counterexample.) -/
theorem first_update_orientation_spec (s : IMUDataProcessor)
    (p0 : IMUDataPacket) (rest : List IMUDataPacket) (w x y z : ℝ)
    (hw : p0.estOrientQuaternionW = some w)
    (hx : p0.estOrientQuaternionX = some x)
    (hy : p0.estOrientQuaternionY = some y)
    (hz : p0.estOrientQuaternionZ = some z)
    (hn : qnorm ⟨w, x, y, z⟩ ≠ 0) :
    ∃ s2, IMUDataProcessor.first_update
        { s with _data_packets := p0 :: rest } = .ok s2 ∧
      s2._current_orientation_quaternions = some (normalizeQ w x y z) ∧
      s2._last_data_packet = some p0 ∧
      ∃ tds, s2.calculate_time_differences = .ok tds ∧ tds.head? = some 0 := by
  have h3 : IMUDataProcessor.first_update
      { s with _data_packets := p0 :: rest } = .ok { s with
      _data_packets := p0 :: rest
      _last_data_packet := some p0
      _initial_altitude :=
        some (listMean ((p0 :: rest).map fun p => p.estPressureAlt))
      _current_orientation_quaternions := some (normalizeQ w x y z) } := by
    simp [IMUDataProcessor.first_update, hw, hx, hy, hz, from_quat_opt, hn,
      normalizeQ]
  refine ⟨_, h3, rfl, rfl, ?_⟩
  refine ⟨_, rfl, ?_⟩
  simp [IMUDataProcessor.calculate_time_differences, npDiff]

/-- C5 witness: applying `first_update_orientation_spec` to the concrete
first batch `[pktA]`, whose quaternion (1, 0, 0, 0) has non-zero norm. -/
theorem first_update_orientation_spec_witness :
    pktA.estOrientQuaternionW = some 1 ∧ qnorm ⟨1, 0, 0, 0⟩ ≠ 0 ∧
    (IMUDataProcessor.first_update
      { IMUDataProcessor.init with _data_packets := [pktA] }).toOption.isSome
      = true := by
  refine ⟨rfl, qnorm_pktA_ne, ?_⟩
  obtain ⟨s2, h1, -, -, -⟩ := first_update_orientation_spec
    IMUDataProcessor.init pktA [] 1 0 0 0 rfl rfl rfl rfl qnorm_pktA_ne
  rw [h1]
  rfl

/-- C5 counterexample: a first batch whose sample carries no orientation
quaternion makes `update` raise a TypeError; the orientation is not set to
the identity quaternion and no state is returned. -/
theorem first_update_no_identity_fallback :
    pktNoQuat.estOrientQuaternionW = none ∧
    IMUDataProcessor.init.update [pktNoQuat] = .error .typeError :=
  ⟨rfl, update_init_pktNoQuat⟩

/-- C6 (amended): every time delta equals the difference of the two
consecutive timestamps (previous batch's last packet prefixed) multiplied
by 1e-9 — a fixed nanoseconds-to-seconds conversion applied regardless of
the unit the source uses. Millisecond timestamps, which is the unit
`IMUDataPacket.timestamp` declares and `convert_to_seconds` divides by
1e3, are not converted to seconds (see the counterexample). -/
theorem time_differences_ns_scaled (s : IMUDataProcessor) (l : IMUDataPacket)
    (hlast : s._last_data_packet = some l) :
    s.calculate_time_differences =
      .ok ((npDiff ((l :: s._data_packets).map fun p => (p.timestamp : ℝ))).map
        fun d => d * 1e-9) := by
  have h0 : s.calculate_time_differences =
      .ok (npDiff ((l :: s._data_packets).map
        fun p => (p.timestamp : ℝ) * 1e-9)) := by
    simp [IMUDataProcessor.calculate_time_differences, hlast]
  rw [h0]
  congr 1
  have hcomp : ((l :: s._data_packets).map fun p => (p.timestamp : ℝ) * 1e-9) =
      (((l :: s._data_packets).map fun p => (p.timestamp : ℝ)).map
        fun d => d * 1e-9) := by
    rw [List.map_map]
    rfl
  rw [hcomp, npDiff_map_mul]

/-- C6 witness: `time_differences_ns_scaled` applied to the concrete state
holding `pktMs0` with batch `[pktMs20]`. -/
theorem time_differences_ns_scaled_witness :
    sMsval._last_data_packet = some pktMs0 ∧
    sMsval.calculate_time_differences =
      .ok ((npDiff ((pktMs0 :: sMsval._data_packets).map
        fun p => (p.timestamp : ℝ))).map fun d => d * 1e-9) :=
  ⟨rfl, time_differences_ns_scaled sMsval pktMs0 rfl⟩

/-- C6 counterexample: two packets 20 apart on the millisecond scale that
`IMUDataPacket.timestamp` declares. Converted to seconds (as
`convert_to_seconds` does for milliseconds) the difference is 0.02 s, but
the processor's time delta is 2e-8 — the conversion applied is the fixed
nanosecond one, not a normalization of the source's unit. -/
theorem time_differences_ms_counterexample :
    sMsval.calculate_time_differences = .ok [(2e-8 : ℝ)] ∧
    convert_to_seconds ((pktMs20.timestamp : ℝ)) -
      convert_to_seconds ((pktMs0.timestamp : ℝ)) = 0.02 ∧
    (2e-8 : ℝ) ≠ 0.02 := by
  refine ⟨?_, by norm_num [convert_to_seconds, pktMs20, pktMs0], by norm_num⟩
  norm_num [IMUDataProcessor.calculate_time_differences, sMsval,
    IMUDataProcessor.init, pktMs0, pktMs20, npDiff]

/-- C3: on the first non-empty update (no last-packet reference yet) the
baseline `_initial_altitude` is set to the arithmetic mean of the batch's
pressure altitudes; on every later call (last-packet reference present) it
is left unchanged, and the last-packet reference stays present so the
first-update path can never run again; and after every successful
non-empty update each emitted current altitude is exactly that sample's
pressure altitude minus the baseline. -/
theorem baseline_spec :
    (∀ (s : IMUDataProcessor) (p0 : IMUDataPacket) (rest : List IMUDataPacket)
      (s2 : IMUDataProcessor), s._last_data_packet = none →
      s.update (p0 :: rest) = .ok s2 →
      s2._initial_altitude =
        some (listMean ((p0 :: rest).map fun p => p.estPressureAlt))) ∧
    (∀ (s : IMUDataProcessor) (ps : List IMUDataPacket)
      (s2 : IMUDataProcessor), s._last_data_packet ≠ none →
      s.update ps = .ok s2 →
      s2._initial_altitude = s._initial_altitude ∧
        s2._last_data_packet ≠ none) ∧
    (∀ (s : IMUDataProcessor) (p0 : IMUDataPacket) (rest : List IMUDataPacket)
      (s2 : IMUDataProcessor), s.update (p0 :: rest) = .ok s2 →
      ∃ ia, s2._initial_altitude = some ia ∧
        s2._current_altitudes =
          (p0 :: rest).map fun p => p.estPressureAlt - ia) := by
  refine ⟨?_, ?_, ?_⟩
  · intro s p0 rest s2 hlast h
    cases hw : p0.estOrientQuaternionW with
    | none =>
        simp [IMUDataProcessor.update, IMUDataProcessor.first_update,
          from_quat_opt, hlast, hw] at h
    | some w =>
    cases hx : p0.estOrientQuaternionX with
    | none =>
        simp [IMUDataProcessor.update, IMUDataProcessor.first_update,
          from_quat_opt, hlast, hw, hx] at h
    | some x =>
    cases hy : p0.estOrientQuaternionY with
    | none =>
        simp [IMUDataProcessor.update, IMUDataProcessor.first_update,
          from_quat_opt, hlast, hw, hx, hy] at h
    | some y =>
    cases hz : p0.estOrientQuaternionZ with
    | none =>
        simp [IMUDataProcessor.update, IMUDataProcessor.first_update,
          from_quat_opt, hlast, hw, hx, hy, hz] at h
    | some z =>
    by_cases hn : qnorm ⟨w, x, y, z⟩ = 0
    · simp [IMUDataProcessor.update, IMUDataProcessor.first_update,
        from_quat_opt, hlast, hw, hx, hy, hz, hn] at h
    · rw [IMUDataProcessor.update_ok_first s p0 rest w x y z hlast hw hx hy hz
        hn] at h
      cases Except.ok.inj h
      rfl
  · intro s ps s2 hlast h
    cases ps with
    | nil =>
        rw [IMUDataProcessor.update_nil] at h
        cases Except.ok.inj h
        exact ⟨rfl, hlast⟩
    | cons p0 rest =>
        cases hl : s._last_data_packet with
        | none => exact absurd hl hlast
        | some l =>
            cases hq : s._current_orientation_quaternions with
            | none =>
                simp [IMUDataProcessor.update,
                  IMUDataProcessor.calculate_time_differences,
                  IMUDataProcessor.calculate_rotated_accelerations, hl, hq] at h
            | some q =>
                cases ha : s._initial_altitude with
                | none =>
                    simp [IMUDataProcessor.update,
                      IMUDataProcessor.calculate_time_differences,
                      IMUDataProcessor.calculate_rotated_accelerations,
                      IMUDataProcessor.calculate_current_altitudes,
                      hl, hq, ha] at h
                | some a =>
                    rw [IMUDataProcessor.update_ok_of_ready s p0 rest l q a hl
                      hq ha] at h
                    cases Except.ok.inj h
                    refine ⟨?_, by simp [IMUDataProcessor.updateResult]⟩
                    simp [IMUDataProcessor.updateResult, ha]
  · intro s p0 rest s2 h
    obtain ⟨l, q, a, rfl⟩ := IMUDataProcessor.update_cons_ok_inv h
    exact ⟨a, rfl, rfl⟩

/-- C3 witness: `baseline_spec` applied to the single-sample first batch
`[pktA]` with pressure altitude 350: the baseline is the mean 350 and the
emitted current altitude of that sample is exactly 0. -/
theorem baseline_spec_witness :
    IMUDataProcessor.init._last_data_packet = none ∧
    IMUDataProcessor.init.update [pktA] = .ok s1val ∧
    s1val._initial_altitude =
      some (listMean ([pktA].map fun p => p.estPressureAlt)) ∧
    listMean ([pktA].map fun p => p.estPressureAlt) = 350 ∧
    s1val.current_altitude = 0 :=
  ⟨rfl, update_init_pktA,
   baseline_spec.1 IMUDataProcessor.init pktA [] s1val rfl update_init_pktA,
   by norm_num [listMean, pktA],
   by norm_num [IMUDataProcessor.current_altitude, s1val]⟩

/-- C2: after every successful non-empty update, the vertical velocity
emitted for sample i equals the carried-over final velocity of the
previous call plus the cumulative sum over j ≤ i of the deadbanded,
gravity-subtracted rotated vertical acceleration_j times dt_j, and the
carried-over velocity becomes the batch's final velocity (never reset).
Concretely: a constant 11 m/s² net vertical acceleration over 10 samples
with dt = 0.02 s each yields a final velocity of exactly 2.2 m/s, and that
velocity seeds the next update call, which continues to 2.2 + 11·0.02. -/
theorem vertical_velocity_integration_spec :
    (∀ (s : IMUDataProcessor) (p0 : IMUDataPacket) (rest : List IMUDataPacket)
      (s2 : IMUDataProcessor), s.update (p0 :: rest) = .ok s2 →
      (∀ (i : ℕ) (hi : i < s2._vertical_velocities.length),
        s2._vertical_velocities.get ⟨i, hi⟩ =
          s._previous_vertical_velocity +
          ((List.zipWith (fun aa dt => aa * dt)
            (s2._rotated_accelerations.map fun r =>
              deadband (r - GRAVITY_METERS_PER_SECOND_SQUARED)
                ACCEL_DEADBAND_METERS_PER_SECOND_SQUARED)
            s2._time_differences).take (i + 1)).sum) ∧
      s2._previous_vertical_velocity =
        s2._vertical_velocities.getLastD s._previous_vertical_velocity) ∧
    IMUDataProcessor.init.update [pktA] = .ok s1val ∧
    s1val.update batchB = .ok s2valB ∧
    s2valB.vertical_velocity = 2.2 ∧
    s2valB._previous_vertical_velocity = 2.2 ∧
    s2valB.update [pktB 11] = .ok s3val ∧
    s3val.vertical_velocity = 2.2 + 11 * 0.02 := by
  refine ⟨?_, update_init_pktA, update_s1val_batchB, ?_, rfl,
    update_s2valB_pktC, ?_⟩
  · intro s p0 rest s2 h
    obtain ⟨l, q, a, rfl⟩ := IMUDataProcessor.update_cons_ok_inv h
    constructor
    · intro i hi
      simp only [IMUDataProcessor.updateResult] at hi ⊢
      rw [List.get_eq_getElem, List.getElem_map]
      congr 1
      exact cumsum_get _ i (by simpa using hi)
    · simp [IMUDataProcessor.updateResult]
  · simp [IMUDataProcessor.vertical_velocity, s2valB]
  · norm_num [IMUDataProcessor.vertical_velocity, s3val]

/-- C2 witness: `vertical_velocity_integration_spec`'s general part applied
to the concrete 10-sample constant-thrust batch following `[pktA]`. -/
theorem vertical_velocity_integration_spec_witness :
    s1val.update batchB = .ok s2valB ∧
    s2valB._previous_vertical_velocity =
      s2valB._vertical_velocities.getLastD s1val._previous_vertical_velocity :=
  ⟨update_s1val_batchB,
   (vertical_velocity_integration_spec.1 s1val (pktB 1)
     [pktB 2, pktB 3, pktB 4, pktB 5, pktB 6, pktB 7, pktB 8, pktB 9, pktB 10]
     s2valB update_s1val_batchB).2⟩

/-- C9: across every sequence of `update` calls starting from the freshly
constructed processor, `max_vertical_velocity` and `max_altitude` are
non-decreasing, and after each later call they are greater than or equal
to every per-sample vertical velocity and every per-sample zeroed altitude
computed at any earlier point of the flight. -/
theorem running_maxima_spec (pre suf : List (List IMUDataPacket))
    (sp sf : IMUDataProcessor)
    (hpre : runUpdates IMUDataProcessor.init pre = .ok sp)
    (hsuf : runUpdates sp suf = .ok sf) :
    sp.max_vertical_velocity ≤ sf.max_vertical_velocity ∧
    sp.max_altitude ≤ sf.max_altitude ∧
    (∀ v ∈ sp._vertical_velocities, v ≤ sf.max_vertical_velocity) ∧
    (∀ alt ∈ sp._current_altitudes, alt ≤ sf.max_altitude) := by
  have hinv0 : (∀ v ∈ IMUDataProcessor.init._vertical_velocities,
      v ≤ IMUDataProcessor.init._max_vertical_velocity) ∧
      (∀ alt ∈ IMUDataProcessor.init._current_altitudes,
        alt ≤ IMUDataProcessor.init._max_altitude) := by
    constructor <;> intro v hv <;> simp [IMUDataProcessor.init] at hv <;>
      simp [IMUDataProcessor.init, hv]
  have hinv := IMUDataProcessor.runUpdates_inv pre IMUDataProcessor.init sp
    hpre hinv0
  have hmono := IMUDataProcessor.runUpdates_mono suf sp sf hsuf
  refine ⟨hmono.1, hmono.2, ?_, ?_⟩
  · intro v hv
    exact le_trans (hinv.1 v hv) hmono.1
  · intro alt halt
    exact le_trans (hinv.2 alt halt) hmono.2

/-- C9 witness: `running_maxima_spec` applied to the concrete run
`[[pktA]]` followed by `[batchB]`: the running maximum velocity grows from
0 to 2.2 m/s and dominates the earlier per-sample velocities. -/
theorem running_maxima_spec_witness :
    runUpdates IMUDataProcessor.init [[pktA]] = .ok s1val ∧
    runUpdates s1val [batchB] = .ok s2valB ∧
    s1val.max_vertical_velocity ≤ s2valB.max_vertical_velocity := by
  have h1 : runUpdates IMUDataProcessor.init [[pktA]] = .ok s1val := by
    simp [runUpdates, update_init_pktA]
  have h2 : runUpdates s1val [batchB] = .ok s2valB := by
    simp [runUpdates, update_s1val_batchB]
  exact ⟨h1, h2, (running_maxima_spec [[pktA]] [batchB] s1val s2valB h1 h2).1⟩
